import Mathlib

/-!
Verification development for the BUNJANG_SYNC middleware core: a shallow
embedding of the order-sync orchestrator (src/services/orderService.js), the
inventory consistency manager (src/services/inventoryService.js) and the
webhook routes (src/routes/webhook.routes.js), together with theorems
settling the frozen claims about them.

External collaborators that are not part of the visible sources
(bunjangService, shopifyService, the orderMapper and the SyncedProduct
Mongo collection) are modelled as oracles: every awaited remote call is a
value of `ExtCall` recording whether the call resolved and to what, and
every database read is a lookup in an explicit table.  Tag/metafield
write-backs onto the Shopify order are modelled from the spec as total
state writes (the spec's section 3 describes them as mutations of the
ExternalOrder annotation surface and attributes no failure mode to them).
-/

namespace BunjangSync

/-- JS truthiness of an optional string: undefined/null and "" are falsy. -/
def truthyStr : Option String → Bool
  | none => false
  | some s => s ≠ ""

/-- JS truthiness of an optional number: undefined/null and 0 are falsy. -/
def truthyNat : Option Nat → Bool
  | none => false
  | some n => n ≠ 0

/-- JS `sku.startsWith('BJ-')`: written on the character list so that
concrete instances evaluate inside the kernel. -/
def startsWithBJ (s : String) : Bool := s.data.take 3 == "BJ-".data

/-- JS `sku.substring(3)`: written on the character list likewise. -/
def substringFrom3 (s : String) : String := ⟨s.data.drop 3⟩

/-- JS `x || dflt` on an optional string: undefined and "" fall back. -/
def jsOrStr (o : Option String) (dflt : String) : String :=
  match o with
  | none => dflt
  | some s => if s = "" then dflt else s

/-- The error value thrown by a failed external API call.  Only the optional
Bunjang domain error code (`apiError.originalError?.response?.data?.errorCode`)
is relevant to any control flow in the sources. -/
structure ApiError where
  errorCode : Option String
deriving DecidableEq

/-- Result of one awaited external call: it either resolves to a value or
throws. -/
inductive ExtCall (α : Type) where
  | ok (val : α)
  | thrown (e : ApiError)
deriving DecidableEq

/-- Equality of `Except` values is decidable when it is on both sides. -/
def exceptDecEq {ε α : Type} [DecidableEq ε] [DecidableEq α] :
    (a b : Except ε α) → Decidable (a = b)
  | .error e, .error f =>
    if h : e = f then isTrue (by rw [h]) else isFalse (by intro hh; cases hh; exact h rfl)
  | .error _, .ok _ => isFalse (by intro hh; cases hh)
  | .ok _, .error _ => isFalse (by intro hh; cases hh)
  | .ok a, .ok b =>
    if h : a = b then isTrue (by rw [h]) else isFalse (by intro hh; cases hh; exact h rfl)

instance {ε α : Type} [DecidableEq ε] [DecidableEq α] : DecidableEq (Except ε α) :=
  exceptDecEq

/-- Live Bunjang product detail as consumed by orderService and
inventoryService: price, shipping fee and quantity, each possibly absent
from the JSON. -/
structure ProductDetails where
  price : Int
  shippingFee : Option Int
  quantity : Option Int
deriving DecidableEq

/-! ## Order Sync Orchestrator: src/services/orderService.js -/

/-- The Bunjang "Create Order V2" payload, reduced to the two fields the
orchestrator reads or writes: `payload.product.price` and
`payload.deliveryPrice`. -/
structure BunjangOrderPayload where
  productPrice : Int
  deliveryPrice : Int
deriving DecidableEq

/-- Response of `bunjangService.createBunjangOrderV2`; a null response and a
response without an `id` are folded into `id = none`, matching the single
JS test `bunjangApiResponse && bunjangApiResponse.id`. -/
structure CreateOrderResponse where
  id : Option String
deriving DecidableEq

/-- Response of `bunjangService.getBunjangPointBalance`. -/
structure PointBalance where
  balance : Int
deriving DecidableEq

/-- The responses that the external services give for one line item's
processing: the live product-detail fetch, the orderMapper result (null
signals a mapping failure), the order-creation call and the point-balance
query. -/
structure ItemWorld where
  fetchDetails : ExtCall (Option ProductDetails)
  mapPayload : Option BunjangOrderPayload
  createOrder : ExtCall CreateOrderResponse
  pointBalance : ExtCall (Option PointBalance)
deriving DecidableEq

/-- A Shopify order line item: its SKU together with the external-world
responses for its processing. -/
structure LineItem where
  sku : Option String
  world : ItemWorld
deriving DecidableEq

/-- One namespaced Shopify metafield input. -/
structure Metafield where
  ns : String
  key : String
  value : String
  mtype : String
deriving DecidableEq

/-- Modelled from the spec: one `shopifyService.updateOrder` call, i.e. the
tags and metafields written back onto the ExternalOrder.  shopifyService is
not among the visible sources; the spec describes the write-back as a
mutation of the ExternalOrder's annotation surface with no failure mode of
its own, so it is modelled as a total state write. -/
structure UpdateCall where
  tags : List String
  metafields : List Metafield
deriving DecidableEq

/-- The accumulators of the per-line-item loop of
`processShopifyOrderForBunjang`, plus the observable effect logs: the
updateOrder calls performed and the payloads submitted to
`createBunjangOrderV2`. -/
structure LoopState where
  createdBunjangOrderIds : List String
  overallSuccess : Bool
  updates : List UpdateCall
  submittedPayloads : List (String × BunjangOrderPayload)
deriving DecidableEq

/-- Append one updateOrder call to the effect log. -/
def pushUpdate (st : LoopState) (u : UpdateCall) : LoopState :=
  { st with updates := st.updates ++ [u] }

/-- Default of `config.bunjang.lowBalanceThreshold`. -/
def lowBalanceThreshold : Int := 1000000

/-- Default of `config.bunjang.orderIdentifierPrefix`. -/
def orderIdPre : String := "bungjang_order_"

/-- The error-code switch of the inner catch block of
`processShopifyOrderForBunjang` (orderService.js lines 124-160): maps the
Bunjang domain error code to the failure tag written onto the order.  An
absent or empty code (JS-falsy) keeps the generic `CreateFail` tag. -/
def errorTagFor (pid : String) (code : Option String) : String :=
  match code with
  | none => "PID-" ++ pid ++ "-CreateFail"
  | some c =>
    if c = "" then "PID-" ++ pid ++ "-CreateFail"
    else if c = "PRODUCT_NOT_FOUND" ∨ c = "PRODUCT_SOLD_OUT" ∨ c = "PRODUCT_ON_HOLD" then
      "PID-" ++ pid ++ "-NotAvailable"
    else if c = "INVALID_PRODUCT_PRICE" then "PID-" ++ pid ++ "-PriceChanged"
    else if c = "INVALID_PRODUCT_QTY" then "PID-" ++ pid ++ "-OutOfStock"
    else if c = "POINT_SHORTAGE" then "PID-" ++ pid ++ "-InsufficientPoints"
    else if c = "INVALID_SELF_PURCHASE" then "PID-" ++ pid ++ "-SelfPurchase"
    else if c = "BLOCKED_BY_OPPONENT" ∨ c = "BLOCKED_BY_SELF" then "PID-" ++ pid ++ "-Blocked"
    else "PID-" ++ pid ++ "-" ++ c

/-- The body of the per-line-item loop of `processShopifyOrderForBunjang`
(orderService.js lines 42-178).  `ident` is the
`bunjangOrderIdentifier` computed once per order.  Mirrors the source:
skip non-`BJ-` SKUs; a throwing or empty detail fetch, a null mapper
result, a response without an id and a thrown creation call each write
their failure tag and fall through to the next item; a created order
id is recorded, the success tags and metafields are written, and the
point balance is checked (its failure only logged). -/
def processItem (ident : String) (st : LoopState) (item : LineItem) : LoopState :=
  match item.sku with
  | none => st
  | some sku =>
    if startsWithBJ sku then
      let pid := substringFrom3 sku
      match item.world.fetchDetails with
      | .thrown _ =>
        -- any exception in the outer try lands in the outer catch
        pushUpdate st ⟨[ident ++ "_Error", "PID-" ++ pid ++ "-Exception"], []⟩
      | .ok none =>
        pushUpdate st ⟨[ident ++ "_Error", "PID-" ++ pid ++ "-NotFound"], []⟩
      | .ok (some details) =>
        match item.world.mapPayload with
        | none =>
          pushUpdate st ⟨[ident ++ "_Error", "PID-" ++ pid ++ "-MapFail"], []⟩
        | some payload0 =>
          -- zero-delivery-fee policy: `bunjangOrderPayload.deliveryPrice = 0`
          let actualFee := details.shippingFee.getD 0
          let payload : BunjangOrderPayload := { payload0 with deliveryPrice := 0 }
          let st := { st with submittedPayloads := st.submittedPayloads ++ [(pid, payload)] }
          match item.world.createOrder with
          | .ok resp =>
            match resp.id with
            | some oid =>
              let st := { st with
                createdBunjangOrderIds := st.createdBunjangOrderIds ++ [oid],
                overallSuccess := true }
              let st := pushUpdate st
                ⟨["BunjangOrderPlaced", ident, "BunjangOrderID-" ++ oid],
                 [⟨"bunjang", "order_id", oid, "single_line_text_field"⟩,
                  ⟨"bunjang", "ordered_pid", pid, "single_line_text_field"⟩,
                  ⟨"bunjang", "ordered_item_price_krw", toString payload.productPrice, "number_integer"⟩,
                  ⟨"bunjang", "api_sent_shipping_fee_krw", toString payload.deliveryPrice, "number_integer"⟩,
                  ⟨"bunjang", "actual_bunjang_shipping_fee_krw", toString actualFee, "number_integer"⟩]⟩
              match item.world.pointBalance with
              | .thrown _ => st
              | .ok none => st
              | .ok (some pb) =>
                if pb.balance < lowBalanceThreshold then
                  pushUpdate st ⟨["LowPointBalance-" ++ toString pb.balance], []⟩
                else st
            | none =>
              pushUpdate st ⟨[ident ++ "_Error", "PID-" ++ pid ++ "-NoOrderId"], []⟩
          | .thrown e =>
            pushUpdate st ⟨[ident ++ "_Error", errorTagFor pid e.errorCode], []⟩
    else st

/-- A Shopify order as validated by `processShopifyOrderForBunjang`: the
numeric REST id, the GraphQL GID and the line-item list. -/
structure ShopifyOrder where
  id : Option Nat
  admin_graphql_api_id : Option String
  line_items : List LineItem
deriving DecidableEq

/-- The `ValidationError` thrown on invalid order data. -/
structure ValidationErr where
  msg : String
deriving DecidableEq

/-- Result of `processShopifyOrderForBunjang`: the `success` flag, the
`bunjangOrderIds` field (present only on the success branch, as in the
source's two return statements) and the effect logs. -/
structure ProcessResult where
  success : Bool
  bunjangOrderIds : Option (List String)
  updates : List UpdateCall
  submittedPayloads : List (String × BunjangOrderPayload)
deriving DecidableEq

/-- Embedding of `processShopifyOrderForBunjang` (orderService.js lines
19-187): validate the order (a JS-falsy id or GID or an empty line-item
list throws `ValidationError`), run the per-item loop, and return success
iff at least one Bunjang order was created. -/
def processShopifyOrderForBunjang (order : ShopifyOrder) :
    Except ValidationErr ProcessResult :=
  if !(truthyNat order.id) || !(truthyStr order.admin_graphql_api_id)
      || order.line_items.isEmpty then
    .error ⟨"Order data invalid or missing line items."⟩
  else
    let ident := orderIdPre ++ toString (order.id.getD 0)
    let st := order.line_items.foldl (processItem ident) ⟨[], false, [], []⟩
    if st.overallSuccess then
      .ok ⟨true, some st.createdBunjangOrderIds, st.updates, st.submittedPayloads⟩
    else
      .ok ⟨false, none, st.updates, st.submittedPayloads⟩

/-! Specification predicates used to state the claims about the
orchestrator. -/

/-- Whether a line item's SKU matches the `BJ-` linkage convention. -/
def itemLinked (item : LineItem) : Bool :=
  match item.sku with
  | none => false
  | some sku => startsWithBJ sku

/-- The Bunjang order id this line item successfully creates, if any: the
item is linked, the live detail fetch resolves to a product, the mapper
returns a payload and the creation call resolves to a response carrying an
id. -/
def itemSuccessId (item : LineItem) : Option String :=
  match item.sku with
  | none => none
  | some sku =>
    if startsWithBJ sku then
      match item.world.fetchDetails with
      | .ok (some _) =>
        match item.world.mapPayload with
        | some _ =>
          match item.world.createOrder with
          | .ok resp => resp.id
          | .thrown _ => none
        | none => none
      | _ => none
    else none

/-- The updateOrder calls one item's processing performs, in isolation. -/
def itemUpdates (ident : String) (item : LineItem) : List UpdateCall :=
  (processItem ident ⟨[], false, [], []⟩ item).updates

/-- The payloads one item's processing submits to the creation API, in
isolation. -/
def itemPayloads (item : LineItem) : List (String × BunjangOrderPayload) :=
  (processItem "" ⟨[], false, [], []⟩ item).submittedPayloads

/-- One loop iteration only appends to the accumulators: its contribution is
a function of the item alone. -/
theorem processItem_eq (ident : String) (st : LoopState) (item : LineItem) :
    processItem ident st item =
      ⟨st.createdBunjangOrderIds ++ (itemSuccessId item).toList,
       st.overallSuccess || (itemSuccessId item).isSome,
       st.updates ++ itemUpdates ident item,
       st.submittedPayloads ++ itemPayloads item⟩ := by
  obtain ⟨sku, ⟨fd, mp, co, pb⟩⟩ := item
  unfold itemUpdates itemPayloads
  cases sku with
  | none => simp [processItem, itemSuccessId]
  | some sku =>
    by_cases hs : startsWithBJ sku
    case pos =>
      cases fd with
      | thrown e => simp [processItem, itemSuccessId, pushUpdate, hs]
      | ok od =>
        cases od with
        | none => simp [processItem, itemSuccessId, pushUpdate, hs]
        | some d =>
          cases mp with
          | none => simp [processItem, itemSuccessId, pushUpdate, hs]
          | some p =>
            cases co with
            | thrown e => simp [processItem, itemSuccessId, pushUpdate, hs]
            | ok resp =>
              obtain ⟨oid⟩ := resp
              cases oid with
              | none => simp [processItem, itemSuccessId, pushUpdate, hs]
              | some oid =>
                cases pb with
                | thrown e => simp [processItem, itemSuccessId, pushUpdate, hs]
                | ok ob =>
                  cases ob with
                  | none => simp [processItem, itemSuccessId, pushUpdate, hs]
                  | some b =>
                    by_cases hb : b.balance < lowBalanceThreshold <;>
                      simp [processItem, itemSuccessId, pushUpdate, hs, hb]
    case neg => simp [processItem, itemSuccessId, hs]

/-- The per-item loop over the whole line-item list: every item contributes
exactly its own created id, success bit, updateOrder calls and submitted
payloads, independently of the other items. -/
theorem foldl_processItem (ident : String) (l : List LineItem) (st : LoopState) :
    l.foldl (processItem ident) st =
      ⟨st.createdBunjangOrderIds ++ l.filterMap itemSuccessId,
       st.overallSuccess || l.any (fun i => (itemSuccessId i).isSome),
       st.updates ++ l.flatMap (itemUpdates ident),
       st.submittedPayloads ++ l.flatMap itemPayloads⟩ := by
  induction l generalizing st with
  | nil => simp
  | cons hd tl ih =>
    rw [List.foldl_cons, processItem_eq, ih]
    cases hId : itemSuccessId hd <;>
      simp [hId, List.filterMap_cons, List.flatMap_cons]

/-- An item that does not match the `BJ-` prefix convention creates no order. -/
theorem itemSuccessId_of_not_linked (item : LineItem) (h : itemLinked item = false) :
    itemSuccessId item = none := by
  obtain ⟨sku, w⟩ := item
  cases sku <;> simp_all [itemLinked, itemSuccessId]

/-- An item that does not match the `BJ-` prefix convention submits no
creation payload. -/
theorem itemPayloads_of_not_linked (item : LineItem) (h : itemLinked item = false) :
    itemPayloads item = [] := by
  obtain ⟨sku, w⟩ := item
  cases sku <;> simp_all [itemLinked, itemPayloads, processItem]

/-- C1: for every Shopify order with a numeric id, a GraphQL GID and a
non-empty line-item list, `processShopifyOrderForBunjang` does not throw;
its `success` flag is true iff at least one line item produced a Bunjang
order; the returned id list is present exactly on success and is exactly
the ids of the items that succeeded; and for an order none of whose items
matches the `BJ-` prefix it returns `success = false`, no id list, and
submits no creation payload at all. -/
theorem claim1_processOrder_success_iff (order : ShopifyOrder)
    (hid : truthyNat order.id = true)
    (hgid : truthyStr order.admin_graphql_api_id = true)
    (hne : order.line_items ≠ []) :
    ∃ r, processShopifyOrderForBunjang order = .ok r ∧
      (r.success = true ↔ ∃ item ∈ order.line_items, (itemSuccessId item).isSome = true) ∧
      r.bunjangOrderIds =
        (if order.line_items.any (fun i => (itemSuccessId i).isSome) then
           some (order.line_items.filterMap itemSuccessId)
         else none) ∧
      ((∀ item ∈ order.line_items, itemLinked item = false) →
        r.success = false ∧ r.bunjangOrderIds = none ∧ r.submittedPayloads = []) := by
  have hempty : order.line_items.isEmpty = false := by
    cases h : order.line_items with
    | nil => exact absurd h hne
    | cons a l => rfl
  simp only [processShopifyOrderForBunjang, hid, hgid, hempty, Bool.not_true,
    Bool.or_false, Bool.or_self, Bool.false_or, if_false, foldl_processItem]
  cases hany : order.line_items.any (fun i => (itemSuccessId i).isSome) with
  | true =>
    refine ⟨_, rfl, ?_, ?_, ?_⟩
    · simpa using List.any_eq_true.mp hany
    · simp
    · intro hall
      rcases List.any_eq_true.mp hany with ⟨i, hi, hsome⟩
      rw [itemSuccessId_of_not_linked i (hall i hi)] at hsome
      simp at hsome
  | false =>
    refine ⟨_, rfl, ?_, ?_, ?_⟩
    · simp only [List.any_eq_false] at hany
      constructor
      · intro h; simp at h
      · rintro ⟨i, hi, hsome⟩; exact absurd hsome (by simpa using hany i hi)
    · simp
    · intro hall
      refine ⟨rfl, rfl, ?_⟩
      simp only [List.nil_append]
      refine List.flatMap_eq_nil_iff.mpr ?_
      intro i hi
      exact itemPayloads_of_not_linked i (hall i hi)

/-- A concrete order exercising C1: one linked item that succeeds with
Bunjang order id 555 and one non-linked item. -/
def c1order : ShopifyOrder :=
  ⟨some 987, some "gid://shopify/Order/987",
   [⟨some "BJ-12345",
     ⟨.ok (some ⟨50000, some 3000, some 3⟩), some ⟨50000, 2500⟩, .ok ⟨some "555"⟩, .ok none⟩⟩,
    ⟨some "OTHER-1", ⟨.ok none, none, .ok ⟨none⟩, .ok none⟩⟩]⟩

/-- Witness for C1 at `c1order`: the preconditions hold and the theorem
yields a successful result. -/
theorem claim1_witness :
    (truthyNat c1order.id = true ∧ truthyStr c1order.admin_graphql_api_id = true ∧
      c1order.line_items ≠ []) ∧
    ∃ r, processShopifyOrderForBunjang c1order = .ok r ∧ r.success = true :=
  ⟨⟨by decide, by decide, by decide⟩, by
    obtain ⟨r, hr, hiff, -, -⟩ :=
      claim1_processOrder_success_iff c1order (by decide) (by decide) (by decide)
    exact ⟨r, hr, hiff.mpr ⟨⟨some "BJ-12345",
      ⟨.ok (some ⟨50000, some 3000, some 3⟩), some ⟨50000, 2500⟩, .ok ⟨some "555"⟩, .ok none⟩⟩,
      by decide, by decide⟩⟩⟩

/-- On a valid order the orchestrator returns normally and its effect logs
are the per-item contributions in order. -/
theorem processOrder_ok_effects (order : ShopifyOrder)
    (hid : truthyNat order.id = true)
    (hgid : truthyStr order.admin_graphql_api_id = true)
    (hne : order.line_items ≠ []) :
    ∃ r, processShopifyOrderForBunjang order = .ok r ∧
      r.updates = order.line_items.flatMap
        (itemUpdates (orderIdPre ++ toString (order.id.getD 0))) ∧
      r.submittedPayloads = order.line_items.flatMap itemPayloads := by
  have hempty : order.line_items.isEmpty = false := by
    cases h : order.line_items with
    | nil => exact absurd h hne
    | cons a l => rfl
  simp only [processShopifyOrderForBunjang, hid, hgid, hempty, Bool.not_true,
    Bool.or_false, Bool.or_self, Bool.false_or, if_false, foldl_processItem]
  cases (order.line_items.any fun i => (itemSuccessId i).isSome) with
  | false =>
    refine ⟨⟨false, none,
      order.line_items.flatMap (itemUpdates (orderIdPre ++ toString (order.id.getD 0))),
      order.line_items.flatMap itemPayloads⟩, by simp, rfl, rfl⟩
  | true =>
    refine ⟨⟨true, some (order.line_items.filterMap itemSuccessId),
      order.line_items.flatMap (itemUpdates (orderIdPre ++ toString (order.id.getD 0))),
      order.line_items.flatMap itemPayloads⟩, by simp, rfl, rfl⟩

/-- A linked item whose live detail fetch resolves to nothing writes exactly
the not-found failure tag. -/
theorem itemUpdates_notFound (ident : String) (item : LineItem) (sku : String)
    (h1 : item.sku = some sku) (h2 : startsWithBJ sku = true)
    (h3 : item.world.fetchDetails = .ok none) :
    itemUpdates ident item =
      [⟨[ident ++ "_Error", "PID-" ++ substringFrom3 sku ++ "-NotFound"], []⟩] := by
  simp [itemUpdates, processItem, h1, h2, h3, pushUpdate]

/-- A linked item whose live detail fetch throws writes exactly the generic
exception tag (the outer catch). -/
theorem itemUpdates_exception (ident : String) (item : LineItem) (sku : String)
    (e : ApiError) (h1 : item.sku = some sku) (h2 : startsWithBJ sku = true)
    (h3 : item.world.fetchDetails = .thrown e) :
    itemUpdates ident item =
      [⟨[ident ++ "_Error", "PID-" ++ substringFrom3 sku ++ "-Exception"], []⟩] := by
  simp [itemUpdates, processItem, h1, h2, h3, pushUpdate]

/-- A linked item whose mapper returns null writes exactly the map-failure
tag. -/
theorem itemUpdates_mapFail (ident : String) (item : LineItem) (sku : String)
    (d : ProductDetails) (h1 : item.sku = some sku) (h2 : startsWithBJ sku = true)
    (h3 : item.world.fetchDetails = .ok (some d))
    (h4 : item.world.mapPayload = none) :
    itemUpdates ident item =
      [⟨[ident ++ "_Error", "PID-" ++ substringFrom3 sku ++ "-MapFail"], []⟩] := by
  simp [itemUpdates, processItem, h1, h2, h3, h4, pushUpdate]

/-- A linked item whose creation call throws writes exactly the failure tag
determined by the error-code switch. -/
theorem itemUpdates_createThrown (ident : String) (item : LineItem) (sku : String)
    (d : ProductDetails) (p : BunjangOrderPayload) (e : ApiError)
    (h1 : item.sku = some sku) (h2 : startsWithBJ sku = true)
    (h3 : item.world.fetchDetails = .ok (some d))
    (h4 : item.world.mapPayload = some p)
    (h5 : item.world.createOrder = .thrown e) :
    itemUpdates ident item =
      [⟨[ident ++ "_Error", errorTagFor (substringFrom3 sku) e.errorCode], []⟩] := by
  simp [itemUpdates, processItem, h1, h2, h3, h4, h5, pushUpdate]

/-- C2: on every valid order, the orchestrator never lets a per-item failure
escape (it always returns a result), the update log is exactly the
concatenation of each item's own contributions — so one item's failure
never affects the processing of the remaining items — and each failure
mode of a linked item (detail fetch resolving to nothing, detail fetch
throwing, mapper returning null, creation call throwing a domain error) is
recorded as a tag-write on the ExternalOrder; the POINT_SHORTAGE domain
code in particular maps to the `PID-<pid>-InsufficientPoints` tag. -/
theorem claim2_item_failure_isolated (order : ShopifyOrder)
    (hid : truthyNat order.id = true)
    (hgid : truthyStr order.admin_graphql_api_id = true)
    (hne : order.line_items ≠ []) :
    ∃ r, processShopifyOrderForBunjang order = .ok r ∧
      r.updates = order.line_items.flatMap
        (itemUpdates (orderIdPre ++ toString (order.id.getD 0))) ∧
      (∀ item ∈ order.line_items, ∀ sku, item.sku = some sku →
        startsWithBJ sku = true →
        (item.world.fetchDetails = .ok none →
          (⟨[orderIdPre ++ toString (order.id.getD 0) ++ "_Error",
             "PID-" ++ substringFrom3 sku ++ "-NotFound"], []⟩ : UpdateCall) ∈ r.updates) ∧
        (∀ e, item.world.fetchDetails = .thrown e →
          (⟨[orderIdPre ++ toString (order.id.getD 0) ++ "_Error",
             "PID-" ++ substringFrom3 sku ++ "-Exception"], []⟩ : UpdateCall) ∈ r.updates) ∧
        (∀ d, item.world.fetchDetails = .ok (some d) → item.world.mapPayload = none →
          (⟨[orderIdPre ++ toString (order.id.getD 0) ++ "_Error",
             "PID-" ++ substringFrom3 sku ++ "-MapFail"], []⟩ : UpdateCall) ∈ r.updates) ∧
        (∀ d p e, item.world.fetchDetails = .ok (some d) →
          item.world.mapPayload = some p → item.world.createOrder = .thrown e →
          (⟨[orderIdPre ++ toString (order.id.getD 0) ++ "_Error",
             errorTagFor (substringFrom3 sku) e.errorCode], []⟩ : UpdateCall) ∈ r.updates)) ∧
      (∀ pid, errorTagFor pid (some "POINT_SHORTAGE") =
        "PID-" ++ pid ++ "-InsufficientPoints") := by
  obtain ⟨r, hr, hupd, hpay⟩ := processOrder_ok_effects order hid hgid hne
  refine ⟨r, hr, hupd, ?_, fun pid => rfl⟩
  intro item hmem sku h1 h2
  refine ⟨?_, ?_, ?_, ?_⟩
  · intro h3
    rw [hupd]
    exact List.mem_flatMap.mpr ⟨item, hmem, by
      rw [itemUpdates_notFound _ item sku h1 h2 h3]; exact List.mem_singleton.mpr rfl⟩
  · intro e h3
    rw [hupd]
    exact List.mem_flatMap.mpr ⟨item, hmem, by
      rw [itemUpdates_exception _ item sku e h1 h2 h3]; exact List.mem_singleton.mpr rfl⟩
  · intro d h3 h4
    rw [hupd]
    exact List.mem_flatMap.mpr ⟨item, hmem, by
      rw [itemUpdates_mapFail _ item sku d h1 h2 h3 h4]; exact List.mem_singleton.mpr rfl⟩
  · intro d p e h3 h4 h5
    rw [hupd]
    exact List.mem_flatMap.mpr ⟨item, hmem, by
      rw [itemUpdates_createThrown _ item sku d p e h1 h2 h3 h4 h5]
      exact List.mem_singleton.mpr rfl⟩

/-- A concrete order exercising C2: the first linked item's creation call
throws the POINT_SHORTAGE domain code, the second linked item succeeds. -/
def c2order : ShopifyOrder :=
  ⟨some 321, some "gid://shopify/Order/321",
   [⟨some "BJ-12345",
     ⟨.ok (some ⟨10000, some 0, some 1⟩), some ⟨10000, 0⟩,
      .thrown ⟨some "POINT_SHORTAGE"⟩, .ok none⟩⟩,
    ⟨some "BJ-777",
     ⟨.ok (some ⟨5000, none, some 2⟩), some ⟨5000, 0⟩, .ok ⟨some "901"⟩, .ok none⟩⟩]⟩

/-- Witness for C2 at `c2order`: the job does not throw, the order is tagged
`PID-12345-InsufficientPoints`, and the following (second) line item is
still processed — it creates Bunjang order 901. -/
theorem claim2_witness :
    (truthyNat c2order.id = true ∧ truthyStr c2order.admin_graphql_api_id = true ∧
      c2order.line_items ≠ []) ∧
    ∃ r, processShopifyOrderForBunjang c2order = .ok r ∧
      (⟨["bungjang_order_321_Error", "PID-12345-InsufficientPoints"], []⟩ : UpdateCall)
        ∈ r.updates := by
  refine ⟨⟨by decide, by decide, by decide⟩, ?_⟩
  obtain ⟨r, hr, hupd, hmodes, htag⟩ :=
    claim2_item_failure_isolated c2order (by decide) (by decide) (by decide)
  refine ⟨r, hr, ?_⟩
  have h := (hmodes ⟨some "BJ-12345",
      ⟨.ok (some ⟨10000, some 0, some 1⟩), some ⟨10000, 0⟩,
       .thrown ⟨some "POINT_SHORTAGE"⟩, .ok none⟩⟩
      (by decide) "BJ-12345" rfl (by decide)).2.2.2
      ⟨10000, some 0, some 1⟩ ⟨10000, 0⟩ ⟨some "POINT_SHORTAGE"⟩ rfl rfl rfl
  have heq : (⟨["bungjang_order_321_Error", "PID-12345-InsufficientPoints"], []⟩ : UpdateCall)
      = ⟨[orderIdPre ++ toString (c2order.id.getD 0) ++ "_Error",
          errorTagFor (substringFrom3 "BJ-12345")
            (ApiError.mk (some "POINT_SHORTAGE")).errorCode], []⟩ := by decide
  rw [heq]
  exact h

/-- Every payload one item submits to the creation API carries delivery
price 0. -/
theorem itemPayloads_deliveryPrice_zero (item : LineItem) :
    ∀ pp ∈ itemPayloads item, pp.2.deliveryPrice = 0 := by
  obtain ⟨sku, ⟨fd, mp, co, pb⟩⟩ := item
  cases sku with
  | none => simp [itemPayloads, processItem]
  | some sku =>
    by_cases hs : startsWithBJ sku
    case pos =>
      cases fd with
      | thrown e => simp [itemPayloads, processItem, pushUpdate, hs]
      | ok od =>
        cases od with
        | none => simp [itemPayloads, processItem, pushUpdate, hs]
        | some d =>
          cases mp with
          | none => simp [itemPayloads, processItem, pushUpdate, hs]
          | some p =>
            cases co with
            | thrown e => simp [itemPayloads, processItem, pushUpdate, hs]
            | ok resp =>
              obtain ⟨oid⟩ := resp
              cases oid with
              | none => simp [itemPayloads, processItem, pushUpdate, hs]
              | some oid =>
                cases pb with
                | thrown e => simp [itemPayloads, processItem, pushUpdate, hs]
                | ok ob =>
                  cases ob with
                  | none => simp [itemPayloads, processItem, pushUpdate, hs]
                  | some b =>
                    by_cases hb : b.balance < lowBalanceThreshold <;>
                      simp [itemPayloads, processItem, pushUpdate, hs, hb]
    case neg => simp [itemPayloads, processItem, hs]

/-- A successfully created item always writes the success update whose
metafields record the submitted fee 0 and the product's actual shipping
fee. -/
theorem success_update_mem_itemUpdates (ident : String) (item : LineItem)
    (sku : String) (d : ProductDetails) (p : BunjangOrderPayload) (oid : String)
    (h1 : item.sku = some sku) (h2 : startsWithBJ sku = true)
    (h3 : item.world.fetchDetails = .ok (some d))
    (h4 : item.world.mapPayload = some p)
    (h5 : item.world.createOrder = .ok ⟨some oid⟩) :
    (⟨["BunjangOrderPlaced", ident, "BunjangOrderID-" ++ oid],
      [⟨"bunjang", "order_id", oid, "single_line_text_field"⟩,
       ⟨"bunjang", "ordered_pid", substringFrom3 sku, "single_line_text_field"⟩,
       ⟨"bunjang", "ordered_item_price_krw", toString p.productPrice, "number_integer"⟩,
       ⟨"bunjang", "api_sent_shipping_fee_krw", toString (0 : Int), "number_integer"⟩,
       ⟨"bunjang", "actual_bunjang_shipping_fee_krw", toString (d.shippingFee.getD 0),
        "number_integer"⟩]⟩ : UpdateCall) ∈ itemUpdates ident item := by
  simp only [itemUpdates, processItem, h1, h2, h3, h4, h5, pushUpdate, if_true]
  cases hpb : item.world.pointBalance with
  | thrown e => simp
  | ok ob =>
    cases ob with
    | none => simp
    | some b =>
      by_cases hb : b.balance < lowBalanceThreshold <;> simp [hb]

/-- C9: on every valid order, every payload submitted to the Bunjang
order-creation API carries delivery price 0 regardless of the product's
actual shipping fee, and every successfully created item records on the
order's metadata the actual Bunjang shipping fee
(`actual_bunjang_shipping_fee_krw`) alongside the submitted fee of 0
(`api_sent_shipping_fee_krw`). -/
theorem claim9_zero_delivery_fee (order : ShopifyOrder)
    (hid : truthyNat order.id = true)
    (hgid : truthyStr order.admin_graphql_api_id = true)
    (hne : order.line_items ≠ []) :
    ∃ r, processShopifyOrderForBunjang order = .ok r ∧
      (∀ pp ∈ r.submittedPayloads, pp.2.deliveryPrice = 0) ∧
      (∀ item ∈ order.line_items, ∀ sku d p oid,
        item.sku = some sku → startsWithBJ sku = true →
        item.world.fetchDetails = .ok (some d) →
        item.world.mapPayload = some p →
        item.world.createOrder = .ok ⟨some oid⟩ →
        (⟨["BunjangOrderPlaced", orderIdPre ++ toString (order.id.getD 0),
           "BunjangOrderID-" ++ oid],
          [⟨"bunjang", "order_id", oid, "single_line_text_field"⟩,
           ⟨"bunjang", "ordered_pid", substringFrom3 sku, "single_line_text_field"⟩,
           ⟨"bunjang", "ordered_item_price_krw", toString p.productPrice, "number_integer"⟩,
           ⟨"bunjang", "api_sent_shipping_fee_krw", toString (0 : Int), "number_integer"⟩,
           ⟨"bunjang", "actual_bunjang_shipping_fee_krw", toString (d.shippingFee.getD 0),
            "number_integer"⟩]⟩ : UpdateCall) ∈ r.updates) := by
  obtain ⟨r, hr, hupd, hpay⟩ := processOrder_ok_effects order hid hgid hne
  refine ⟨r, hr, ?_, ?_⟩
  · intro pp hpp
    rw [hpay] at hpp
    rcases List.mem_flatMap.mp hpp with ⟨item, -, hmem⟩
    exact itemPayloads_deliveryPrice_zero item pp hmem
  · intro item hmem sku d p oid h1 h2 h3 h4 h5
    rw [hupd]
    exact List.mem_flatMap.mpr ⟨item, hmem,
      success_update_mem_itemUpdates _ item sku d p oid h1 h2 h3 h4 h5⟩

/-- A concrete order exercising C9: the product's actual shipping fee is
3000 KRW yet the submitted delivery price is 0 and both fees land in the
metafields. -/
def c9order : ShopifyOrder :=
  ⟨some 42, some "gid://shopify/Order/42",
   [⟨some "BJ-555",
     ⟨.ok (some ⟨70000, some 3000, some 2⟩), some ⟨70000, 3000⟩,
      .ok ⟨some "888"⟩, .ok none⟩⟩]⟩

/-- Witness for C9 at `c9order`: all submitted payloads carry delivery
price 0 and the success update records fee 0 sent versus 3000 actual. -/
theorem claim9_witness :
    (truthyNat c9order.id = true ∧ truthyStr c9order.admin_graphql_api_id = true ∧
      c9order.line_items ≠ []) ∧
    ∃ r, processShopifyOrderForBunjang c9order = .ok r ∧
      (∀ pp ∈ r.submittedPayloads, pp.2.deliveryPrice = 0) ∧
      (⟨["BunjangOrderPlaced", "bungjang_order_42", "BunjangOrderID-888"],
        [⟨"bunjang", "order_id", "888", "single_line_text_field"⟩,
         ⟨"bunjang", "ordered_pid", "555", "single_line_text_field"⟩,
         ⟨"bunjang", "ordered_item_price_krw", "70000", "number_integer"⟩,
         ⟨"bunjang", "api_sent_shipping_fee_krw", "0", "number_integer"⟩,
         ⟨"bunjang", "actual_bunjang_shipping_fee_krw", "3000", "number_integer"⟩]⟩
        : UpdateCall) ∈ r.updates := by
  refine ⟨⟨by decide, by decide, by decide⟩, ?_⟩
  obtain ⟨r, hr, hzero, hsucc⟩ :=
    claim9_zero_delivery_fee c9order (by decide) (by decide) (by decide)
  refine ⟨r, hr, hzero, ?_⟩
  have h := hsucc ⟨some "BJ-555",
      ⟨.ok (some ⟨70000, some 3000, some 2⟩), some ⟨70000, 3000⟩,
       .ok ⟨some "888"⟩, .ok none⟩⟩
      (by decide) "BJ-555" ⟨70000, some 3000, some 2⟩ ⟨70000, 3000⟩ "888"
      rfl (by decide) rfl rfl rfl
  have heq : (⟨["BunjangOrderPlaced", "bungjang_order_42", "BunjangOrderID-888"],
      [⟨"bunjang", "order_id", "888", "single_line_text_field"⟩,
       ⟨"bunjang", "ordered_pid", "555", "single_line_text_field"⟩,
       ⟨"bunjang", "ordered_item_price_krw", "70000", "number_integer"⟩,
       ⟨"bunjang", "api_sent_shipping_fee_krw", "0", "number_integer"⟩,
       ⟨"bunjang", "actual_bunjang_shipping_fee_krw", "3000", "number_integer"⟩]⟩
      : UpdateCall)
      = ⟨["BunjangOrderPlaced", orderIdPre ++ toString (c9order.id.getD 0),
          "BunjangOrderID-" ++ "888"],
         [⟨"bunjang", "order_id", "888", "single_line_text_field"⟩,
          ⟨"bunjang", "ordered_pid", substringFrom3 "BJ-555", "single_line_text_field"⟩,
          ⟨"bunjang", "ordered_item_price_krw",
            toString ((⟨70000, 3000⟩ : BunjangOrderPayload)).productPrice, "number_integer"⟩,
          ⟨"bunjang", "api_sent_shipping_fee_krw", toString (0 : Int), "number_integer"⟩,
          ⟨"bunjang", "actual_bunjang_shipping_fee_krw",
            toString ((some (3000 : Int)).getD 0), "number_integer"⟩]⟩ := by decide
  rw [heq]
  exact h

/-! ## Inventory Consistency Manager: src/services/inventoryService.js -/

/-- One row of the SyncedProduct Mongo collection, reduced to the fields the
visible sources read: the ProductLink of the spec. -/
structure SyncedProductRec where
  bunjangPid : Option String
  shopifyGid : Option String
  shopifyDataId : Option Nat
  bunjangProductName : String
  bunjangQuantity : Int
  syncStatus : String
deriving DecidableEq

/-- The first variant of the linked Shopify product as returned by the
GraphQL variant query: its inventory item id and current quantity. -/
structure VariantInfo where
  inventoryItemId : String
  inventoryQuantity : Option Int
deriving DecidableEq

/-- Modelled from the spec: one `shopifyService.updateInventoryLevel` call —
the quantity pushed to the Platform A inventory item.  shopifyService is
not among the visible sources; the spec describes the push as a plain
write of the target quantity, so it is modelled as a total recorded
effect. -/
structure Push where
  inventoryItemId : String
  quantity : Int
deriving DecidableEq

/-- The external world of the inventory service: the SyncedProduct table,
the Shopify variant query per product GID, and the Bunjang product-detail
fetch per pid. -/
structure InvWorld where
  table : List SyncedProductRec
  getVariant : String → ExtCall (Option VariantInfo)
  getBunjangProductDetails : String → ExtCall (Option ProductDetails)

/-- `SyncedProduct.findOne({ bunjangPid })`. -/
def findByPid (w : InvWorld) (pid : String) : Option SyncedProductRec :=
  w.table.find? (fun r => r.bunjangPid == some pid)

/-- Embedding of `syncBunjangInventoryToShopify` (inventoryService.js lines
17-90): no link or a link without a Shopify GID returns false (warning
no-op); a variant query that returns no product or no variant logs an
error and returns false; a throwing variant query is re-thrown by the
function's catch; otherwise the target quantity is pushed exactly when the
variant's current quantity (JS `variant.inventoryQuantity || 0`) differs
from it, and the function returns true.  The second component is the list
of inventory-level pushes performed. -/
def syncBunjangInventoryToShopify (w : InvWorld) (bunjangPid : String)
    (bunjangQuantity : Int) : Except ApiError Bool × List Push :=
  match findByPid w bunjangPid with
  | none => (.ok false, [])
  | some sp =>
    if !(truthyStr sp.shopifyGid) then (.ok false, [])
    else
      match w.getVariant (sp.shopifyGid.getD "") with
      | .thrown e => (.error e, [])
      | .ok none => (.ok false, [])
      | .ok (some v) =>
        let currentQuantity := v.inventoryQuantity.getD 0
        if currentQuantity ≠ bunjangQuantity then
          (.ok true, [⟨v.inventoryItemId, bunjangQuantity⟩])
        else
          (.ok true, [])

/-- Embedding of `checkAndSyncBunjangInventory` (inventoryService.js lines
136-157): the Bunjang detail fetch resolving to nothing returns the
sentinel -1; a resolved fetch syncs the fetched quantity (JS
`productDetails.quantity || 0`) to Shopify and returns it; a throwing
fetch or sync is re-thrown by the function's catch. -/
def checkAndSyncBunjangInventory (w : InvWorld) (bunjangPid : String) :
    Except ApiError Int × List Push :=
  match w.getBunjangProductDetails bunjangPid with
  | .thrown e => (.error e, [])
  | .ok none => (.ok (-1), [])
  | .ok (some d) =>
    let currentQuantity := d.quantity.getD 0
    match syncBunjangInventoryToShopify w bunjangPid currentQuantity with
    | (.error e, ps) => (.error e, ps)
    | (.ok _, ps) => (.ok currentQuantity, ps)

/-- One low-stock summary entry of the full-sync result. -/
structure LowStockEntry where
  bunjangPid : String
  productName : String
  currentStock : Int
deriving DecidableEq

/-- The result record of `performFullInventorySync`. -/
structure FullSyncResults where
  totalProducts : Nat
  synced : Nat
  failed : Nat
  skipped : Nat
  lowStock : List LowStockEntry
deriving DecidableEq

/-- The body of the per-product loop of `performFullInventorySync`
(inventoryService.js lines 231-259): a thrown `checkAndSync` increments
`failed`; a non-negative result increments `synced` and, when at most 5,
appends a low-stock entry built from the fetched quantity; a negative
result (the -1 sentinel) increments `skipped`. -/
def fullSyncStep (w : InvWorld) (acc : FullSyncResults × List Push)
    (p : SyncedProductRec) : FullSyncResults × List Push :=
  let (res, pushes) := acc
  match checkAndSyncBunjangInventory w (p.bunjangPid.getD "") with
  | (.error _, ps) => ({ res with failed := res.failed + 1 }, pushes ++ ps)
  | (.ok q, ps) =>
    if q ≥ 0 then
      let res := { res with synced := res.synced + 1 }
      if q ≤ 5 then
        ({ res with lowStock :=
            res.lowStock ++ [⟨p.bunjangPid.getD "", p.bunjangProductName, q⟩] },
         pushes ++ ps)
      else (res, pushes ++ ps)
    else ({ res with skipped := res.skipped + 1 }, pushes ++ ps)

/-- The SYNCED ProductLinks a full sync iterates:
`find({syncStatus:'SYNCED', bunjangPid:{$exists:true}}).limit(1000)`. -/
def fullSyncProducts (w : InvWorld) : List SyncedProductRec :=
  (w.table.filter (fun r => r.syncStatus == "SYNCED" && r.bunjangPid.isSome)).take 1000

/-- Embedding of `performFullInventorySync` (inventoryService.js lines
209-275): iterate `checkAndSync` over at most 1000 SYNCED links,
classifying each outcome into synced / skipped / failed and collecting
low-stock entries. -/
def performFullInventorySync (w : InvWorld) : FullSyncResults × List Push :=
  let syncedProducts := fullSyncProducts w
  syncedProducts.foldl (fullSyncStep w) (⟨syncedProducts.length, 0, 0, 0, []⟩, [])

/-- The `checkAndSync` outcome a full-sync iteration observes for one
ProductLink. -/
def fullSyncOutcome (w : InvWorld) (p : SyncedProductRec) : Except ApiError Int :=
  (checkAndSyncBunjangInventory w (p.bunjangPid.getD "")).1

/-- Whether a product counts as synced: a non-negative `checkAndSync`
result. -/
def countsSynced (w : InvWorld) (p : SyncedProductRec) : Bool :=
  match fullSyncOutcome w p with
  | .ok q => if 0 ≤ q then true else false
  | .error _ => false

/-- Whether a product counts as failed: a thrown `checkAndSync`. -/
def countsFailed (w : InvWorld) (p : SyncedProductRec) : Bool :=
  match fullSyncOutcome w p with
  | .ok _ => false
  | .error _ => true

/-- Whether a product counts as skipped: a negative (sentinel)
`checkAndSync` result. -/
def countsSkipped (w : InvWorld) (p : SyncedProductRec) : Bool :=
  match fullSyncOutcome w p with
  | .ok q => if q < 0 then true else false
  | .error _ => false

/-- The low-stock entry a product contributes, if any: only a fetched
quantity between 0 and 5 produces one. -/
def lowStockOf (w : InvWorld) (p : SyncedProductRec) : Option LowStockEntry :=
  match fullSyncOutcome w p with
  | .ok q =>
    if 0 ≤ q ∧ q ≤ 5 then some ⟨p.bunjangPid.getD "", p.bunjangProductName, q⟩ else none
  | .error _ => none

/-- One full-sync iteration adds exactly the product's own classification to
the counters. -/
theorem fullSyncStep_eq (w : InvWorld) (acc : FullSyncResults × List Push)
    (p : SyncedProductRec) :
    fullSyncStep w acc p =
      (⟨acc.1.totalProducts,
        acc.1.synced + (if countsSynced w p then 1 else 0),
        acc.1.failed + (if countsFailed w p then 1 else 0),
        acc.1.skipped + (if countsSkipped w p then 1 else 0),
        acc.1.lowStock ++ (lowStockOf w p).toList⟩,
       acc.2 ++ (checkAndSyncBunjangInventory w (p.bunjangPid.getD "")).2) := by
  obtain ⟨res, pushes⟩ := acc
  cases h : checkAndSyncBunjangInventory w (p.bunjangPid.getD "") with
  | mk r ps =>
    cases r with
    | error e =>
      simp [fullSyncStep, countsSynced, countsFailed, countsSkipped, lowStockOf,
        fullSyncOutcome, h]
    | ok q =>
      by_cases h0 : 0 ≤ q
      · by_cases h5 : q ≤ 5 <;>
          simp [fullSyncStep, countsSynced, countsFailed, countsSkipped, lowStockOf,
            fullSyncOutcome, h, h0, h5, ge_iff_le, not_lt.mpr h0]
      · simp [fullSyncStep, countsSynced, countsFailed, countsSkipped, lowStockOf,
          fullSyncOutcome, h, h0, ge_iff_le, not_le.mp h0]

/-- The full-sync loop over a product list: counters are the classification
counts and the low-stock list is the per-product contribution in order. -/
theorem foldl_fullSyncStep (w : InvWorld) (l : List SyncedProductRec)
    (acc : FullSyncResults × List Push) :
    l.foldl (fullSyncStep w) acc =
      (⟨acc.1.totalProducts,
        acc.1.synced + l.countP (countsSynced w),
        acc.1.failed + l.countP (countsFailed w),
        acc.1.skipped + l.countP (countsSkipped w),
        acc.1.lowStock ++ l.filterMap (lowStockOf w)⟩,
       acc.2 ++ l.flatMap
         (fun p => (checkAndSyncBunjangInventory w (p.bunjangPid.getD "")).2)) := by
  induction l generalizing acc with
  | nil => simp
  | cons hd tl ih =>
    rw [List.foldl_cons, fullSyncStep_eq, ih]
    cases hl : lowStockOf w hd <;>
      simp [hl, List.countP_cons, List.filterMap_cons, List.flatMap_cons,
        Nat.add_comm, Nat.add_assoc, Nat.add_left_comm]

/-- C10: in every full sync over the (at most 1000) SYNCED ProductLinks, the
counters are exactly the per-product classifications: a -1 result counts
as skipped — not synced or failed — and contributes no low-stock entry
even when the cached quantity is at or below the threshold; an exception
counts as failed; a non-negative result counts as synced and contributes a
low-stock entry exactly when the fetched quantity is at most 5. -/
theorem claim10_fullSync_classification (w : InvWorld) :
    (performFullInventorySync w).1.totalProducts = (fullSyncProducts w).length ∧
    (performFullInventorySync w).1.synced = (fullSyncProducts w).countP (countsSynced w) ∧
    (performFullInventorySync w).1.failed = (fullSyncProducts w).countP (countsFailed w) ∧
    (performFullInventorySync w).1.skipped = (fullSyncProducts w).countP (countsSkipped w) ∧
    (performFullInventorySync w).1.lowStock = (fullSyncProducts w).filterMap (lowStockOf w) ∧
    (fullSyncProducts w).length ≤ 1000 ∧
    (∀ p, fullSyncOutcome w p = .ok (-1) →
      countsSkipped w p = true ∧ countsSynced w p = false ∧ countsFailed w p = false ∧
      (p.bunjangQuantity ≤ 5 → lowStockOf w p = none)) ∧
    (∀ p q, fullSyncOutcome w p = .ok q → 0 ≤ q →
      countsSynced w p = true ∧
      (lowStockOf w p).isSome = (if q ≤ 5 then true else false)) ∧
    (∀ p e, fullSyncOutcome w p = .error e → countsFailed w p = true) := by
  have hmain := foldl_fullSyncStep w (fullSyncProducts w) (⟨(fullSyncProducts w).length, 0, 0, 0, []⟩, [])
  refine ⟨?_, ?_, ?_, ?_, ?_, ?_, ?_, ?_, ?_⟩
  · rw [performFullInventorySync, hmain]
  · rw [performFullInventorySync, hmain]; simp
  · rw [performFullInventorySync, hmain]; simp
  · rw [performFullInventorySync, hmain]; simp
  · rw [performFullInventorySync, hmain]; simp
  · exact List.length_take_le 1000 _
  · intro p hp
    refine ⟨?_, ?_, ?_, fun _ => ?_⟩ <;>
      simp [countsSkipped, countsSynced, countsFailed, lowStockOf, hp]
  · intro p q hp h0
    constructor
    · simp [countsSynced, hp, h0]
    · by_cases h5 : q ≤ 5 <;> simp [lowStockOf, hp, h0, h5]
  · intro p e hp
    simp [countsFailed, hp]

/-- A concrete full-sync world exercising C10, the spec's end-to-end
scenario C: three SYNCED links; P1's Bunjang fetch resolves to nothing
(sentinel -1) while its cached quantity 2 is below the threshold, P2
fetches quantity 3, P3's fetch throws. -/
def c10world : InvWorld :=
  ⟨[⟨some "P1", some "g1", none, "p1", 2, "SYNCED"⟩,
    ⟨some "P2", some "g2", none, "p2", 9, "SYNCED"⟩,
    ⟨some "P3", some "g3", none, "p3", 4, "SYNCED"⟩],
   fun g => if g = "g2" then .ok (some ⟨"i2", some 9⟩) else .ok none,
   fun pid =>
     if pid = "P1" then .ok none
     else if pid = "P2" then .ok (some ⟨1000, none, some 3⟩)
     else .thrown ⟨none⟩⟩

/-- Witness for C10 at `c10world`: counts are total 3, synced 1, failed 1,
skipped 1; the low-stock list holds only P2 (fetched quantity 3), and P1 —
whose result was -1 — is excluded although its cached quantity 2 is below
the threshold. -/
theorem claim10_witness :
    (performFullInventorySync c10world).1 = ⟨3, 1, 1, 1, [⟨"P2", "p2", 3⟩]⟩ ∧
    fullSyncOutcome c10world ⟨some "P1", some "g1", none, "p1", 2, "SYNCED"⟩ = .ok (-1) ∧
    lowStockOf c10world ⟨some "P1", some "g1", none, "p1", 2, "SYNCED"⟩ = none := by
  refine ⟨by decide, by decide, ?_⟩
  exact ((claim10_fullSync_classification c10world).2.2.2.2.2.2.1
    ⟨some "P1", some "g1", none, "p1", 2, "SYNCED"⟩ (by decide)).2.2.2 (by decide)

/-- A world for the C5 counterexample: the ProductLink for P1 exists (with a
Shopify GID) but the Shopify variant query resolves to no product. -/
def c5world : InvWorld :=
  ⟨[⟨some "P1", some "gid1", none, "Prod1", 5, "SYNCED"⟩],
   fun _ => .ok none,
   fun _ => .ok none⟩

/-- C5 counterexample: the ProductLink for P1 exists, yet `syncOne` returns
false — refuting "returns true whenever the link exists, regardless of
whether a quantity push occurred": the source also returns false when the
linked Shopify product or its variant cannot be fetched
(inventoryService.js lines 50-53). -/
theorem claim5_counterexample :
    (findByPid c5world "P1").isSome = true ∧
    syncBunjangInventoryToShopify c5world "P1" 5 = (.ok false, []) := by
  exact ⟨by decide, by decide⟩

/-- C5 amended: `syncOne` returns false (a warning no-op, not an error) when
no ProductLink exists for the productId; it returns true whenever the link
exists with a Shopify GID and the variant lookup yields a variant,
regardless of whether a push occurred — the push happens exactly when the
current Shopify quantity differs from the target; and it returns false
(not true) when the link exists but the variant lookup yields no product
or variant. -/
theorem claim5_amended_syncOne (w : InvWorld) (pid : String) (q : Int) :
    (findByPid w pid = none →
      syncBunjangInventoryToShopify w pid q = (.ok false, [])) ∧
    (∀ sp gid v, findByPid w pid = some sp → sp.shopifyGid = some gid → gid ≠ "" →
      w.getVariant gid = .ok (some v) →
      syncBunjangInventoryToShopify w pid q =
        (.ok true,
         if v.inventoryQuantity.getD 0 ≠ q then [⟨v.inventoryItemId, q⟩] else [])) ∧
    (∀ sp gid, findByPid w pid = some sp → sp.shopifyGid = some gid → gid ≠ "" →
      w.getVariant gid = .ok none →
      syncBunjangInventoryToShopify w pid q = (.ok false, [])) := by
  refine ⟨?_, ?_, ?_⟩
  · intro h
    simp [syncBunjangInventoryToShopify, h]
  · intro sp gid v hsp hgid hne hv
    by_cases hvq : v.inventoryQuantity.getD 0 = q <;>
      simp [syncBunjangInventoryToShopify, hsp, hgid, hne, hv, truthyStr, hvq]
  · intro sp gid hsp hgid hne hv
    simp [syncBunjangInventoryToShopify, hsp, hgid, hne, hv, truthyStr]

/-- A world for the C5 amended witness: the link for P2 exists, the variant
lookup succeeds with current quantity 3. -/
def c5goodWorld : InvWorld :=
  ⟨[⟨some "P2", some "gidX", none, "Prod2", 3, "SYNCED"⟩],
   fun g => if g = "gidX" then .ok (some ⟨"inv2", some 3⟩) else .ok none,
   fun _ => .ok none⟩

/-- Witness for the amended C5: a missing link returns false; an existing
link with target 5 returns true and pushes 5; the same link with target 3
(already current) returns true with no push. -/
theorem claim5_amended_witness :
    syncBunjangInventoryToShopify c5goodWorld "NOPE" 5 = (.ok false, []) ∧
    syncBunjangInventoryToShopify c5goodWorld "P2" 5 = (.ok true, [⟨"inv2", 5⟩]) ∧
    syncBunjangInventoryToShopify c5goodWorld "P2" 3 = (.ok true, []) := by
  refine ⟨?_, ?_, ?_⟩
  · exact (claim5_amended_syncOne c5goodWorld "NOPE" 5).1 (by decide)
  · have h := (claim5_amended_syncOne c5goodWorld "P2" 5).2.1
      ⟨some "P2", some "gidX", none, "Prod2", 3, "SYNCED"⟩ "gidX" ⟨"inv2", some 3⟩
      (by decide) rfl (by decide) (by decide)
    simpa using h
  · have h := (claim5_amended_syncOne c5goodWorld "P2" 3).2.1
      ⟨some "P2", some "gidX", none, "Prod2", 3, "SYNCED"⟩ "gidX" ⟨"inv2", some 3⟩
      (by decide) rfl (by decide) (by decide)
    simpa using h

/-- C6: `checkAndSync` returns the sentinel -1 — which is not 0 — exactly
when the Bunjang product fetch resolves to nothing, and any normally
returned quantity is either that sentinel or the genuinely fetched
quantity with a missing quantity field read as 0 — so a caller can always
distinguish "unknown" from "confirmed zero stock". -/
theorem claim6_checkAndSync_sentinel (w : InvWorld) (pid : String) :
    (w.getBunjangProductDetails pid = .ok none →
      checkAndSyncBunjangInventory w pid = (.ok (-1), []) ∧ ((-1 : Int) ≠ 0)) ∧
    (∀ q, (checkAndSyncBunjangInventory w pid).1 = .ok q →
      (w.getBunjangProductDetails pid = .ok none ∧ q = -1) ∨
      (∃ d, w.getBunjangProductDetails pid = .ok (some d) ∧ q = d.quantity.getD 0)) := by
  constructor
  · intro h
    refine ⟨?_, by decide⟩
    simp [checkAndSyncBunjangInventory, h]
  · intro q hq
    cases hfd : w.getBunjangProductDetails pid with
    | thrown e => rw [checkAndSyncBunjangInventory, hfd] at hq; simp at hq
    | ok od =>
      cases od with
      | none =>
        rw [checkAndSyncBunjangInventory, hfd] at hq
        simp at hq
        exact Or.inl ⟨rfl, hq.symm⟩
      | some d =>
        refine Or.inr ⟨d, rfl, ?_⟩
        cases hs : syncBunjangInventoryToShopify w pid (d.quantity.getD 0) with
        | mk r ps =>
          cases r with
          | error e =>
            rw [checkAndSyncBunjangInventory, hfd] at hq
            simp [hs] at hq
          | ok b =>
            rw [checkAndSyncBunjangInventory, hfd] at hq
            simp [hs] at hq
            exact hq.symm

/-- A world for the C6 witness: P1's fetch resolves to nothing, P2 fetches a
product whose quantity field is missing, P3 fetches quantity 7. -/
def c6world : InvWorld :=
  ⟨[],
   fun _ => .ok none,
   fun pid =>
     if pid = "P1" then .ok none
     else if pid = "P2" then .ok (some ⟨500, none, none⟩)
     else .ok (some ⟨500, none, some 7⟩)⟩

/-- Witness for C6 at `c6world`: the failed fetch yields the sentinel -1
(not 0), the missing quantity field reads as 0, and a fetched quantity 7
is returned as is. -/
theorem claim6_witness :
    checkAndSyncBunjangInventory c6world "P1" = (.ok (-1), []) ∧
    (checkAndSyncBunjangInventory c6world "P2").1 = .ok 0 ∧
    (checkAndSyncBunjangInventory c6world "P3").1 = .ok 7 := by
  refine ⟨((claim6_checkAndSync_sentinel c6world "P1").1 (by decide)).1, by decide, by decide⟩

/-! ## Webhook routes: src/routes/webhook.routes.js -/

/-- A line item of an inbound order webhook payload. -/
structure WebhookLineItem where
  product_id : Nat
  quantity : Nat
deriving DecidableEq

/-- The parsed body of an order webhook. -/
structure OrderPayload where
  line_items : List WebhookLineItem
  cancelled_at : Option String
deriving DecidableEq

/-- An inbound webhook request: the three Shopify headers, the raw captured
bytes and the possibly already-parsed body. -/
structure WebhookRequest where
  hmacHeader : Option String
  topicHeader : Option String
  shopDomainHeader : Option String
  rawBody : Option (List Nat)
  parsedBody : Option OrderPayload
deriving DecidableEq

/-- The cryptographic primitives of the node crypto library, abstracted:
HMAC-SHA256 over key and message bytes, base64 encoding of a digest, and
base64 decoding of a header string (`Buffer.from(s, 'base64')`). -/
structure CryptoModel where
  hmacSha256 : String → List Nat → List Nat
  b64encode : List Nat → String
  b64decode : String → List Nat

/-- The body a route handler responds with. -/
inductive RespBody where
  | text (s : String)
  | jsonStatus (s : String)
  | jsonError (s : String)
deriving DecidableEq

/-- An HTTP response: status code and body. -/
structure HttpResponse where
  status : Nat
  body : RespBody
deriving DecidableEq

/-- Outcome of the verification middleware: an early response, or control
passed to the route handler with the parsed body. -/
inductive VerifyResult where
  | respond (r : HttpResponse)
  | next (body : OrderPayload)
deriving DecidableEq

/-- Embedding of the `verifyWebhook` middleware (webhook.routes.js lines
11-90): missing HMAC header → 401; missing raw body → 401; unconfigured
webhook secret → 500 (server configuration error); compute the HMAC over
the raw bytes, base64-decode both signatures and compare length and
content (`crypto.timingSafeEqual`) → 401 on mismatch; then parse the body
if not already parsed (400 on bad JSON) and pass control on. -/
def verifyWebhook (crypto : CryptoModel) (webhookSecret : Option String)
    (parseJson : List Nat → Option OrderPayload) (req : WebhookRequest) :
    VerifyResult :=
  if !(truthyStr req.hmacHeader) then
    .respond ⟨401, .text "Unauthorized - Missing HMAC"⟩
  else
    match req.rawBody with
    | none => .respond ⟨401, .text "Unauthorized - Missing body"⟩
    | some rawBodyBuffer =>
      if !(truthyStr webhookSecret) then
        .respond ⟨500, .text "Server configuration error"⟩
      else
        let calculatedHmac :=
          crypto.b64encode (crypto.hmacSha256 (webhookSecret.getD "") rawBodyBuffer)
        let hmacBuffer := crypto.b64decode (req.hmacHeader.getD "")
        let calculatedBuffer := crypto.b64decode calculatedHmac
        if hmacBuffer.length != calculatedBuffer.length || hmacBuffer != calculatedBuffer then
          .respond ⟨401, .text "Unauthorized - Invalid HMAC"⟩
        else
          match req.parsedBody with
          | some body => .next body
          | none =>
            match parseJson rawBodyBuffer with
            | some body => .next body
            | none => .respond ⟨400, .text "Bad Request - Invalid JSON"⟩

/-- The `$or` SyncedProduct query of the order webhooks: match on the
Shopify product GID built from the numeric product id, or on the stored
`shopifyData.id` (its number and string forms coincide in the typed
model). -/
def findByShopifyProduct (table : List SyncedProductRec) (productId : Nat) :
    Option SyncedProductRec :=
  table.find? (fun r =>
    r.shopifyGid == some ("gid://shopify/Product/" ++ toString productId)
      || r.shopifyDataId == some productId)

/-- The per-line-item body of the orders/create webhook handler
(webhook.routes.js lines 99-144): look up the link; when it has a Bunjang
pid, read the current quantity via `checkAndSync` and, when it is
non-negative, push `max 0 (current - quantity)`; any item exception is
caught so the remaining items are still processed. -/
def processCreateLineItem (w : InvWorld) (pushes : List Push)
    (li : WebhookLineItem) : List Push :=
  match findByShopifyProduct w.table li.product_id with
  | none => pushes
  | some sp =>
    if !(truthyStr sp.bunjangPid) then pushes
    else
      match checkAndSyncBunjangInventory w (sp.bunjangPid.getD "") with
      | (.error _, ps) => pushes ++ ps
      | (.ok currentStock, ps) =>
        -- JS: `currentStock !== null && currentStock >= 0`
        if currentStock ≥ 0 then
          let newStock := max 0 (currentStock - (li.quantity : Int))
          match syncBunjangInventoryToShopify w (sp.bunjangPid.getD "") newStock with
          | (.error _, ps2) => pushes ++ ps ++ ps2
          | (.ok _, ps2) => pushes ++ ps ++ ps2
        else pushes ++ ps

/-- Embedding of `POST /webhooks/orders/create` (webhook.routes.js lines
93-152): verification middleware, then the per-item inventory decrement
loop, then `200 {status:"success"}`. -/
def ordersCreateRoute (crypto : CryptoModel) (webhookSecret : Option String)
    (parseJson : List Nat → Option OrderPayload) (w : InvWorld)
    (req : WebhookRequest) : HttpResponse × List Push :=
  match verifyWebhook crypto webhookSecret parseJson req with
  | .respond r => (r, [])
  | .next order =>
    (⟨200, .jsonStatus "success"⟩,
     order.line_items.foldl (processCreateLineItem w) [])

/-- The per-line-item body of the cancellation branch of the orders/updated
webhook handler (webhook.routes.js lines 164-190): look up the link; when
it has a Bunjang pid, read the current quantity via `checkAndSync` and —
with only the JS `currentStock !== null` test, which a returned number
never fails — push `current + quantity` back. -/
def processCancelLineItem (w : InvWorld) (pushes : List Push)
    (li : WebhookLineItem) : List Push :=
  match findByShopifyProduct w.table li.product_id with
  | none => pushes
  | some sp =>
    if !(truthyStr sp.bunjangPid) then pushes
    else
      match checkAndSyncBunjangInventory w (sp.bunjangPid.getD "") with
      | (.error _, ps) => pushes ++ ps
      | (.ok currentStock, ps) =>
        let restoredStock := currentStock + (li.quantity : Int)
        match syncBunjangInventoryToShopify w (sp.bunjangPid.getD "") restoredStock with
        | (.error _, ps2) => pushes ++ ps ++ ps2
        | (.ok _, ps2) => pushes ++ ps ++ ps2

/-- Embedding of `POST /webhooks/orders/updated` (webhook.routes.js lines
155-199): verification middleware, then — only when the payload carries a
cancellation timestamp — the per-item inventory restoration loop, then
`200 {status:"success"}`. -/
def ordersUpdatedRoute (crypto : CryptoModel) (webhookSecret : Option String)
    (parseJson : List Nat → Option OrderPayload) (w : InvWorld)
    (req : WebhookRequest) : HttpResponse × List Push :=
  match verifyWebhook crypto webhookSecret parseJson req with
  | .respond r => (r, [])
  | .next order =>
    if truthyStr order.cancelled_at then
      (⟨200, .jsonStatus "success"⟩,
       order.line_items.foldl (processCancelLineItem w) [])
    else
      (⟨200, .jsonStatus "success"⟩, [])

/-- C3: for every inbound request on the order-creation route, a missing
signature header, a missing raw payload, and signatures differing in
length or content each yield 401 Unauthorized with no side effect; a
missing shared secret yields a 500 server-configuration response (distinct
from an authentication failure); a request passing all checks reaches the
topic handler, which on success responds 200 with status "success"; and
control reaches a handler only when the header, raw body and secret were
present and the signatures agreed. -/
theorem claim3_webhook_verification (crypto : CryptoModel) (secret : Option String)
    (parseJson : List Nat → Option OrderPayload) (w : InvWorld)
    (req : WebhookRequest) :
    (truthyStr req.hmacHeader = false →
      ordersCreateRoute crypto secret parseJson w req =
        (⟨401, .text "Unauthorized - Missing HMAC"⟩, [])) ∧
    (truthyStr req.hmacHeader = true → req.rawBody = none →
      ordersCreateRoute crypto secret parseJson w req =
        (⟨401, .text "Unauthorized - Missing body"⟩, [])) ∧
    (∀ raw, truthyStr req.hmacHeader = true → req.rawBody = some raw →
      truthyStr secret = false →
      ordersCreateRoute crypto secret parseJson w req =
        (⟨500, .text "Server configuration error"⟩, []) ∧ (500 : Nat) ≠ 401) ∧
    (∀ raw, truthyStr req.hmacHeader = true → req.rawBody = some raw →
      truthyStr secret = true →
      ((crypto.b64decode (req.hmacHeader.getD "")).length ≠
         (crypto.b64decode
           (crypto.b64encode (crypto.hmacSha256 (secret.getD "") raw))).length ∨
       crypto.b64decode (req.hmacHeader.getD "") ≠
         crypto.b64decode
           (crypto.b64encode (crypto.hmacSha256 (secret.getD "") raw))) →
      ordersCreateRoute crypto secret parseJson w req =
        (⟨401, .text "Unauthorized - Invalid HMAC"⟩, [])) ∧
    (∀ raw order, truthyStr req.hmacHeader = true → req.rawBody = some raw →
      truthyStr secret = true →
      crypto.b64decode (req.hmacHeader.getD "") =
        crypto.b64decode (crypto.b64encode (crypto.hmacSha256 (secret.getD "") raw)) →
      req.parsedBody = some order →
      ordersCreateRoute crypto secret parseJson w req =
        (⟨200, .jsonStatus "success"⟩,
         order.line_items.foldl (processCreateLineItem w) [])) ∧
    (∀ body, verifyWebhook crypto secret parseJson req = .next body →
      truthyStr req.hmacHeader = true ∧ req.rawBody ≠ none ∧ truthyStr secret = true ∧
      (∀ raw, req.rawBody = some raw →
        crypto.b64decode (req.hmacHeader.getD "") =
          crypto.b64decode (crypto.b64encode (crypto.hmacSha256 (secret.getD "") raw)))) := by
  refine ⟨?_, ?_, ?_, ?_, ?_, ?_⟩
  · intro h
    simp [ordersCreateRoute, verifyWebhook, h]
  · intro h1 h2
    simp [ordersCreateRoute, verifyWebhook, h1, h2]
  · intro raw h1 h2 h3
    refine ⟨?_, by decide⟩
    simp [ordersCreateRoute, verifyWebhook, h1, h2, h3]
  · intro raw h1 h2 h3 hdiff
    have hb : ((crypto.b64decode (req.hmacHeader.getD "")).length !=
        (crypto.b64decode
          (crypto.b64encode (crypto.hmacSha256 (secret.getD "") raw))).length ||
      crypto.b64decode (req.hmacHeader.getD "") !=
        crypto.b64decode (crypto.b64encode (crypto.hmacSha256 (secret.getD "") raw)))
        = true := by
      simp only [Bool.or_eq_true, bne_iff_ne]
      exact hdiff
    simp [ordersCreateRoute, verifyWebhook, h1, h2, h3, hb]
  · intro raw order h1 h2 h3 hdec h4
    have hb : ((crypto.b64decode (req.hmacHeader.getD "")).length !=
        (crypto.b64decode
          (crypto.b64encode (crypto.hmacSha256 (secret.getD "") raw))).length ||
      crypto.b64decode (req.hmacHeader.getD "") !=
        crypto.b64decode (crypto.b64encode (crypto.hmacSha256 (secret.getD "") raw)))
        = false := by
      simp only [Bool.or_eq_false_iff, bne_eq_false_iff_eq]
      exact ⟨by rw [hdec], hdec⟩
    simp [ordersCreateRoute, verifyWebhook, h1, h2, h3, h4, hb]
  · intro body hnext
    by_cases h1 : truthyStr req.hmacHeader = true
    case neg =>
      simp [verifyWebhook, Bool.eq_false_iff.mpr h1] at hnext
    case pos =>
      cases h2 : req.rawBody with
      | none => simp [verifyWebhook, h1, h2] at hnext
      | some raw =>
        by_cases h3 : truthyStr secret = true
        case neg =>
          simp [verifyWebhook, h1, h2, Bool.eq_false_iff.mpr h3] at hnext
        case pos =>
          refine ⟨h1, by simp [h2], h3, ?_⟩
          intro raw' hraw'
          injection hraw' with hrr
          subst hrr
          by_cases hcond : crypto.b64decode (req.hmacHeader.getD "") =
              crypto.b64decode (crypto.b64encode (crypto.hmacSha256 (secret.getD "") raw))
          · exact hcond
          · have hb : ((crypto.b64decode (req.hmacHeader.getD "")).length !=
                (crypto.b64decode
                  (crypto.b64encode (crypto.hmacSha256 (secret.getD "") raw))).length ||
              crypto.b64decode (req.hmacHeader.getD "") !=
                crypto.b64decode (crypto.b64encode (crypto.hmacSha256 (secret.getD "") raw)))
                = true := by
              simp only [Bool.or_eq_true, bne_iff_ne]
              exact Or.inr hcond
            simp [verifyWebhook, h1, h2, h3, hb] at hnext

/-- Concrete crypto primitives for evaluating the webhook routes: the digest
is the message itself, every encoding collapses to the string SIG, and
decoding SIG yields the byte 9. -/
def testCrypto : CryptoModel :=
  ⟨fun _ m => m, fun _ => "SIG", fun s => if s = "SIG" then [9] else [0]⟩

/-- An inventory world with no links, for requests whose handler effects are
irrelevant. -/
def c3world : InvWorld := ⟨[], fun _ => .ok none, fun _ => .ok none⟩

/-- A request carrying a valid signature and an already-parsed empty order. -/
def c3reqPass : WebhookRequest :=
  ⟨some "SIG", some "orders/create", some "shop.example.com", some [1, 2],
   some ⟨[], none⟩⟩

/-- The same request without the signature header. -/
def c3reqNoHmac : WebhookRequest :=
  ⟨none, some "orders/create", some "shop.example.com", some [1, 2], some ⟨[], none⟩⟩

/-- Witness for C3: a correctly signed request is answered 200 with status
"success", a request without the signature header is answered 401, and the
same signed request against an unconfigured secret is answered 500. -/
theorem claim3_witness :
    ordersCreateRoute testCrypto (some "k") (fun _ => none) c3world c3reqPass =
      (⟨200, .jsonStatus "success"⟩, []) ∧
    ordersCreateRoute testCrypto (some "k") (fun _ => none) c3world c3reqNoHmac =
      (⟨401, .text "Unauthorized - Missing HMAC"⟩, []) ∧
    ordersCreateRoute testCrypto none (fun _ => none) c3world c3reqPass =
      (⟨500, .text "Server configuration error"⟩, []) := by
  refine ⟨?_, ?_, ?_⟩
  · have h := (claim3_webhook_verification testCrypto (some "k") (fun _ => none)
      c3world c3reqPass).2.2.2.2.1 [1, 2] ⟨[], none⟩
      (by decide) rfl (by decide) (by decide) rfl
    simpa using h
  · exact (claim3_webhook_verification testCrypto (some "k") (fun _ => none)
      c3world c3reqNoHmac).1 (by decide)
  · exact ((claim3_webhook_verification testCrypto none (fun _ => none)
      c3world c3reqPass).2.2.1 [1, 2] (by decide) rfl (by decide)).1

/-- The world of the C4 failing input: one link P1 whose Bunjang fetch
resolves to nothing (so `checkAndSync` yields the -1 sentinel) and whose
Shopify variant currently stocks 5 units. -/
def c4world : InvWorld :=
  ⟨[⟨some "P1", some "gid://shopify/Product/1", none, "p1", 5, "SYNCED"⟩],
   fun g => if g = "gid://shopify/Product/1" then .ok (some ⟨"invItem1", some 5⟩)
            else .ok none,
   fun _ => .ok none⟩

/-- The C4 failing input: a signed cancellation webhook whose linked line
item has quantity 0. -/
def c4req : WebhookRequest :=
  ⟨some "SIG", some "orders/updated", some "shop.example.com", some [1],
   some ⟨[⟨1, 0⟩], some "2024-01-01T00:00:00Z"⟩⟩

/-- C4 evaluated at the failing input: `checkAndSync` returns the -1
sentinel, yet the cancellation route — which unlike the creation route has
no non-negativity guard — pushes the negative quantity -1 (= -1 + 0) to
the Platform A inventory item, while the creation route on the same state
correctly pushes nothing. -/
theorem claim4_cancel_restore_pushes_sentinel :
    checkAndSyncBunjangInventory c4world "P1" = (.ok (-1), []) ∧
    ordersUpdatedRoute testCrypto (some "k") (fun _ => none) c4world c4req =
      (⟨200, .jsonStatus "success"⟩, [⟨"invItem1", -1⟩]) ∧
    ordersCreateRoute testCrypto (some "k") (fun _ => none) c4world c4req =
      (⟨200, .jsonStatus "success"⟩, []) ∧
    ((-1 : Int) < 0) := by
  exact ⟨by decide, by decide, by decide, by decide⟩

/-! ## Status Reconciliation Poller: the second half of
src/services/orderService.js -/

/-- One item of a Bunjang order as returned by the order listing. -/
structure BunjangOrderItem where
  status : String
  productId : String
  purchaseConfirmedAt : Option String
deriving DecidableEq

/-- A Bunjang order from the listing, together with the response of the
tag-search GraphQL query that locates the corresponding Shopify order
(`tag:"BunjangOrderID-<id>"`): the found order GID, nothing, or a thrown
request. -/
structure BunjangOrder where
  id : String
  orderItems : List BunjangOrderItem
  searchResult : ExtCall (Option String)
deriving DecidableEq

/-- The updateOrder calls one Bunjang order item's status produces
(orderService.js lines 293-354): the ship statuses delegate to the
fulfillment stub (which only logs), PURCHASE_CONFIRM writes the
confirmation metafields (`purchaseConfirmedAt || now`), the
cancel/refund/return statuses write the status tags, and every item
unconditionally stamps the last-sync metafields. -/
def statusBranchUpdates (now bunjangOrderId : String) (item : BunjangOrderItem) :
    List UpdateCall :=
  (if item.status = "PURCHASE_CONFIRM" then
    [⟨[], [⟨"bunjang", "purchase_confirmed", "true", "single_line_text_field"⟩,
           ⟨"bunjang", "purchase_confirmed_at", jsOrStr item.purchaseConfirmedAt now,
            "date_time"⟩]⟩]
  else if item.status = "CANCEL_REQUESTED_BEFORE_SHIPPING" ∨ item.status = "REFUNDED"
      ∨ item.status = "RETURN_REQUESTED" ∨ item.status = "RETURNED" then
    [⟨["BunjangStatus-" ++ item.status,
       "BunjangOrder-" ++ bunjangOrderId ++ "-" ++ item.status], []⟩]
  else [])
  ++ [⟨[], [⟨"bunjang", "last_status_sync", now, "date_time"⟩,
            ⟨"bunjang", "last_bunjang_status", item.status, "single_line_text_field"⟩]⟩]

/-- Embedding of `updateShopifyOrderFromBunjangStatus` (orderService.js
lines 255-355): a thrown tag search propagates; no matching Shopify order
is logged and skipped (not an error); otherwise every order item's status
is handled and stamped. -/
def updateShopifyOrderFromBunjangStatus (now : String) (bo : BunjangOrder) :
    Except ApiError (List UpdateCall) :=
  match bo.searchResult with
  | .thrown e => .error e
  | .ok none => .ok []
  | .ok (some _) => .ok (bo.orderItems.flatMap (statusBranchUpdates now bo.id))

/-- Whether syncing one Bunjang order fails (is caught and counted as an
error by the page loop). -/
def orderSyncFails (now : String) (o : BunjangOrder) : Bool :=
  match updateShopifyOrderFromBunjangStatus now o with
  | .error _ => true
  | .ok _ => false

/-- The per-order body of the page loop of `syncBunjangOrderStatuses`
(orderService.js lines 227-235): a successful sync increments
`syncedCount`, a thrown sync is caught and increments `errorCount`. -/
def pageFold (now : String) (c : Nat × Nat) (o : BunjangOrder) : Nat × Nat :=
  match updateShopifyOrderFromBunjangStatus now o with
  | .ok _ => (c.1 + 1, c.2)
  | .error _ => (c.1, c.2 + 1)

/-- Result of one `bunjangService.getBunjangOrders` page fetch: a thrown
request, a response without data (`!ordersResponse || !ordersResponse.data`),
or a data page with the reported total page count. -/
inductive PageFetch where
  | thrown (e : ApiError)
  | noData
  | page (orders : List BunjangOrder) (totalPages : Int)

/-- The external world of the status poller: the page fetches by page
index. -/
structure OrdersEnv where
  getBunjangOrders : Nat → PageFetch

/-- The `while (hasMore)` page loop of `syncBunjangOrderStatuses`
(orderService.js lines 217-239), structured on a fuel argument since the
number of iterations is driven by the remote `totalPages` values: a thrown
page fetch aborts with that error, a dataless response ends the loop, and
otherwise the orders of the page are folded and the loop continues while
`page < totalPages - 1`.  The second component records the page indices
requested from the remote API. -/
def statusLoop (env : OrdersEnv) (now : String) :
    Nat → Nat → Nat → Nat → Except ApiError (Nat × Nat) × List Nat
  | 0, _, synced, errors => (.ok (synced, errors), [])
  | fuel + 1, page, synced, errors =>
    match env.getBunjangOrders page with
    | .thrown e => (.error e, [page])
    | .noData => (.ok (synced, errors), [page])
    | .page orders totalPages =>
      let counts := orders.foldl (pageFold now) (synced, errors)
      if (page : Int) < totalPages - 1 then
        let rest := statusLoop env now fuel (page + 1) counts.1 counts.2
        (rest.1, page :: rest.2)
      else
        (.ok counts, [page])

/-- The two failure classes of `syncBunjangOrderStatuses`. -/
inductive SyncError where
  | validation
  | api (e : ApiError)
deriving DecidableEq

/-- Milliseconds per day, the divisor of the JS date-range check. -/
def msPerDay : Int := 1000 * 60 * 60 * 24

/-- Embedding of `syncBunjangOrderStatuses` (orderService.js lines 196-248)
on millisecond timestamps.  The source computes
`diffDays = (end - start) / (1000*60*60*24)` in IEEE double arithmetic and
tests `diffDays > 15`; on exact millisecond inputs that comparison
coincides with the integer comparison used here, because 15 days in
milliseconds is exactly representable and the rounded quotient of exactly
representable operands lands on the same side of 15 as the true quotient.
A range wider than 15 days throws `ValidationError` before any page is
requested; otherwise the page loop runs from page 0. -/
def syncBunjangOrderStatuses (env : OrdersEnv) (now : String) (fuel : Nat)
    (startMs endMs : Int) : Except SyncError (Nat × Nat) × List Nat :=
  if endMs - startMs > 15 * msPerDay then
    (.error .validation, [])
  else
    match statusLoop env now fuel 0 0 0 with
    | (.error e, tr) => (.error (.api e), tr)
    | (.ok c, tr) => (.ok c, tr)

/-- C7: a requested range strictly wider than 15 days always fails with the
validation error and requests no page from the remote API; a range of
exactly 15 days or less passes validation and proceeds straight to the
page loop. -/
theorem claim7_date_window_validation (env : OrdersEnv) (now : String)
    (fuel : Nat) (startMs endMs : Int) :
    (endMs - startMs > 15 * msPerDay →
      syncBunjangOrderStatuses env now fuel startMs endMs = (.error .validation, [])) ∧
    (endMs - startMs ≤ 15 * msPerDay →
      (syncBunjangOrderStatuses env now fuel startMs endMs).1 ≠ .error .validation ∧
      syncBunjangOrderStatuses env now fuel startMs endMs =
        (match statusLoop env now fuel 0 0 0 with
         | (.error e, tr) => (.error (.api e), tr)
         | (.ok c, tr) => (.ok c, tr))) := by
  constructor
  · intro h
    simp [syncBunjangOrderStatuses, h]
  · intro h
    have hno : ¬ (endMs - startMs > 15 * msPerDay) := not_lt.mpr h
    constructor
    · cases hs : statusLoop env now fuel 0 0 0 with
      | mk res tr =>
        cases res with
        | error e => simp [syncBunjangOrderStatuses, hno, hs]
        | ok c => simp [syncBunjangOrderStatuses, hno, hs]
    · simp [syncBunjangOrderStatuses, hno]

/-- An environment whose every page fetch reports no data. -/
def c7env : OrdersEnv := ⟨fun _ => .noData⟩

/-- Witness for C7 at `c7env`: a 16-day range is rejected with the
validation error and no page request; a range of exactly 15 days is
accepted. -/
theorem claim7_witness :
    syncBunjangOrderStatuses c7env "t" 5 0 (16 * msPerDay) = (.error .validation, []) ∧
    (syncBunjangOrderStatuses c7env "t" 5 0 (15 * msPerDay)).1 ≠ .error .validation := by
  constructor
  · exact (claim7_date_window_validation c7env "t" 5 0 (16 * msPerDay)).1 (by decide)
  · exact ((claim7_date_window_validation c7env "t" 5 0 (15 * msPerDay)).2 (by decide)).1

/-- The order fold counts exactly the per-order outcomes: successes into the
first component, caught failures into the second, processing every order
of the page. -/
theorem pageFold_counts (now : String) (orders : List BunjangOrder) (s r : Nat) :
    orders.foldl (pageFold now) (s, r) =
      (s + orders.countP (fun o => !orderSyncFails now o),
       r + orders.countP (orderSyncFails now)) := by
  induction orders generalizing s r with
  | nil => simp
  | cons hd tl ih =>
    rw [List.foldl_cons]
    cases hu : updateShopifyOrderFromBunjangStatus now hd with
    | ok us =>
      have hstep : pageFold now (s, r) hd = (s + 1, r) := by simp [pageFold, hu]
      rw [hstep, ih]
      simp [List.countP_cons, orderSyncFails, hu, Nat.add_comm, Nat.add_assoc,
        Nat.add_left_comm]
    | error e =>
      have hstep : pageFold now (s, r) hd = (s, r + 1) := by simp [pageFold, hu]
      rw [hstep, ih]
      simp [List.countP_cons, orderSyncFails, hu, Nat.add_comm, Nat.add_assoc,
        Nat.add_left_comm]

/-- If no page fetch ever throws, the loop always returns counts. -/
theorem statusLoop_ok_of_no_thrown (env : OrdersEnv) (now : String)
    (hno : ∀ j e, env.getBunjangOrders j ≠ .thrown e) :
    ∀ fuel page s r, ∃ c tr, statusLoop env now fuel page s r = (.ok c, tr) := by
  intro fuel
  induction fuel with
  | zero => intro page s r; exact ⟨(s, r), [], rfl⟩
  | succ f ih =>
    intro page s r
    cases hp : env.getBunjangOrders page with
    | thrown e => exact absurd hp (hno page e)
    | noData => exact ⟨(s, r), [page], by simp [statusLoop, hp]⟩
    | page os tp =>
      by_cases hc : (page : Int) < tp - 1
      · obtain ⟨c, tr, hrec⟩ := ih (page + 1)
          (os.foldl (pageFold now) (s, r)).1 (os.foldl (pageFold now) (s, r)).2
        exact ⟨c, page :: tr, by simp [statusLoop, hp, hc, hrec]⟩
      · exact ⟨os.foldl (pageFold now) (s, r), [page], by simp [statusLoop, hp, hc]⟩

/-- C8: a failure syncing one marketplace order is caught and counted in the
error count while the loop proceeds — the fold processes every order of
the page and partitions them into synced and error counts — whereas a
thrown page fetch aborts the loop with that error and is re-raised by
`syncBunjangOrderStatuses` as an API failure; when no page fetch throws,
the loop always returns counts, and for a consistent single-page listing
the operation returns exactly the partition counts. -/
theorem claim8_page_vs_order_failures :
    (∀ (env : OrdersEnv) (now : String) (fuel page s r : Nat) (e : ApiError),
      env.getBunjangOrders page = .thrown e →
      statusLoop env now (fuel + 1) page s r = (.error e, [page])) ∧
    (∀ (env : OrdersEnv) (now : String),
      (∀ j e, env.getBunjangOrders j ≠ .thrown e) →
      ∀ fuel page s r, ∃ c tr, statusLoop env now fuel page s r = (.ok c, tr)) ∧
    (∀ (now : String) (orders : List BunjangOrder) (s r : Nat),
      orders.foldl (pageFold now) (s, r) =
        (s + orders.countP (fun o => !orderSyncFails now o),
         r + orders.countP (orderSyncFails now))) ∧
    (∀ (env : OrdersEnv) (now : String) (fuel : Nat) (startMs endMs : Int)
        (orders : List BunjangOrder) (tp : Int),
      endMs - startMs ≤ 15 * msPerDay →
      env.getBunjangOrders 0 = .page orders tp → tp ≤ 1 →
      syncBunjangOrderStatuses env now (fuel + 1) startMs endMs =
        (.ok (orders.countP (fun o => !orderSyncFails now o),
              orders.countP (orderSyncFails now)), [0])) ∧
    (∀ (env : OrdersEnv) (now : String) (fuel : Nat) (startMs endMs : Int)
        (e : ApiError),
      endMs - startMs ≤ 15 * msPerDay → env.getBunjangOrders 0 = .thrown e →
      syncBunjangOrderStatuses env now (fuel + 1) startMs endMs =
        (.error (.api e), [0])) := by
  refine ⟨?_, ?_, ?_, ?_, ?_⟩
  · intro env now fuel page s r e hp
    simp [statusLoop, hp]
  · exact fun env now hno => statusLoop_ok_of_no_thrown env now hno
  · exact pageFold_counts
  · intro env now fuel startMs endMs orders tp hdate hp htp
    have hno : ¬ (endMs - startMs > 15 * msPerDay) := not_lt.mpr hdate
    have hc : ¬ ((0 : Int) < tp - 1) := by omega
    have hfold := pageFold_counts now orders 0 0
    simp only [Nat.zero_add] at hfold
    simp [syncBunjangOrderStatuses, hno, statusLoop, hp, hc]
    exact hfold
  · intro env now fuel startMs endMs e hdate hp
    have hno : ¬ (endMs - startMs > 15 * msPerDay) := not_lt.mpr hdate
    simp [syncBunjangOrderStatuses, hno, statusLoop, hp]

/-- The single marketplace page of the C8 witness: order B1 syncs (its tag
search finds a Shopify order), order B2's tag search throws. -/
def c8orders : List BunjangOrder :=
  [⟨"B1", [⟨"PURCHASE_CONFIRM", "p1", none⟩], .ok (some "gidO1")⟩,
   ⟨"B2", [], .thrown ⟨none⟩⟩]

/-- A single-page environment serving `c8orders`. -/
def c8env : OrdersEnv := ⟨fun p => if p = 0 then .page c8orders 1 else .noData⟩

/-- An environment whose every page fetch throws. -/
def c8envBad : OrdersEnv := ⟨fun _ => .thrown ⟨some "X"⟩⟩

/-- Witness for C8: over `c8env` the run returns counts synced 1, errors 1
(the failing order B2 is counted, the loop having proceeded past it);
over `c8envBad` the page-fetch failure is re-raised. -/
theorem claim8_witness :
    syncBunjangOrderStatuses c8env "t" (4 + 1) 0 (10 * msPerDay) = (.ok (1, 1), [0]) ∧
    syncBunjangOrderStatuses c8envBad "t" (4 + 1) 0 (10 * msPerDay) =
      (.error (.api ⟨some "X"⟩), [0]) := by
  constructor
  · have hD := claim8_page_vs_order_failures.2.2.2.1 c8env "t" 4 0 (10 * msPerDay)
      c8orders 1 (by decide) rfl (by decide)
    rw [hD]
    decide
  · exact claim8_page_vs_order_failures.2.2.2.2 c8envBad "t" 4 0 (10 * msPerDay)
      ⟨some "X"⟩ (by decide) rfl

end BunjangSync
